import Mathlib

/-!
Shallow embedding of the layoff-tracker ingestion pipeline
(models, storage upsert, scraper row loops, retry client, scheduler)
together with proofs settling the specification claims.

Python strings appearing in the data handled here are ASCII, so a Python
`str` is modelled by a Lean `String` and `str.encode()` by the list of
code points of its characters.
-/

namespace LayoffTracker

set_option maxRecDepth 100000

/-! ## Python string primitives (ASCII fragment) -/

/-- Model of Python `str.lower()` on ASCII strings: lowercase each character. -/
def pyLower (s : String) : String := ⟨s.toList.map Char.toLower⟩

/-- Model of Python `str.strip()` on ASCII strings: drop whitespace at
both ends. -/
def pyStrip (s : String) : String :=
  ⟨(((s.toList.dropWhile Char.isWhitespace).reverse.dropWhile Char.isWhitespace).reverse)⟩

/-- One step of Python `str.title()`: a cased (here: alphabetic) character is
uppercased when the previous character was not cased, lowercased otherwise. -/
def pyTitleGo : List Char → Bool → List Char
  | [], _ => []
  | c :: cs, prevCased =>
      if c.isAlpha then
        (if prevCased then c.toLower else c.toUpper) :: pyTitleGo cs true
      else
        c :: pyTitleGo cs false

/-- Model of Python `str.title()` on ASCII strings. -/
def pyTitle (s : String) : String := ⟨pyTitleGo s.toList false⟩

/-- Model of Python slicing `s[:n]` on a string. -/
def pyTake (s : String) (n : Nat) : String := ⟨s.toList.take n⟩

/-- Model of Python `sub in s` (substring containment) via Lean's
substring search on string lists. -/
def pyContains (s sub : String) : Bool := decide (List.IsInfix sub.toList s.toList)

/-- Model of Python `str.replace(old, new)` restricted to the uses in the
source, where `old` is a single character and `new` is empty: delete every
occurrence of the character. -/
def pyDeleteChar (s : String) (c : Char) : String :=
  ⟨s.toList.filter (fun x => x ≠ c)⟩

/-- Byte sequence of an ASCII string, modelling Python `str.encode()`. -/
def strBytes (s : String) : List Nat := s.toList.map Char.toNat

/-! ## Calendar dates

Python `datetime.date` objects, with their total order and ISO rendering
(`str(d)` zero-pads to `YYYY-MM-DD`). -/

structure Date where
  year : Nat
  month : Nat
  day : Nat
deriving DecidableEq, Repr

/-- Lexicographic strict order on dates, as on Python `date` objects. -/
def Date.lt (a b : Date) : Prop :=
  a.year < b.year ∨ (a.year = b.year ∧
    (a.month < b.month ∨ (a.month = b.month ∧ a.day < b.day)))

instance : LT Date := ⟨Date.lt⟩

instance (a b : Date) : Decidable (a < b) := by
  unfold LT.lt instLTDate Date.lt; infer_instance

/-- Lexicographic order on dates, as on Python `date` objects. -/
def Date.le (a b : Date) : Prop := a < b ∨ a = b

instance : LE Date := ⟨Date.le⟩

instance (a b : Date) : Decidable (a ≤ b) := by
  unfold LE.le instLEDate Date.le; infer_instance

/-- Zero-padded decimal rendering of `n` to (at least) `w` digits. -/
def padNum (w n : Nat) : String :=
  let s := toString n
  ⟨List.replicate (w - s.length) '0'⟩ ++ s

/-- Model of Python `str(d)` on a `date`: ISO `YYYY-MM-DD`. -/
def Date.toIso (d : Date) : String :=
  padNum 4 d.year ++ "-" ++ padNum 2 d.month ++ "-" ++ padNum 2 d.day

/-- Days in a month of the proleptic Gregorian calendar, as Python
`datetime.date` validates them. -/
def daysInMonth (year month : Nat) : Nat :=
  if month = 2 then
    if year % 4 = 0 ∧ (year % 100 ≠ 0 ∨ year % 400 = 0) then 29 else 28
  else if month = 4 ∨ month = 6 ∨ month = 9 ∨ month = 11 then 30
  else 31

/-- Model of the Python `date(year, month, day)` constructor: `some` date when
the components are valid, `none` standing for the raised `ValueError`. -/
def mkDate (year month day : Nat) : Option Date :=
  if 1 ≤ month ∧ month ≤ 12 ∧ 1 ≤ day ∧ day ≤ daysInMonth year month ∧
      1 ≤ year ∧ year ≤ 9999 then
    some ⟨year, month, day⟩
  else none

/-! ## MD5 (`hashlib.md5`)

Executable model of the MD5 digest used by `Layoff.generate_unique_id`,
over byte lists, with 32-bit words as naturals reduced mod `2 ^ 32`. -/

/-- Addition of 32-bit words. -/
def add32 (a b : Nat) : Nat := (a + b) % 4294967296

/-- Bitwise complement of a 32-bit word. -/
def not32 (a : Nat) : Nat := 4294967295 - a

/-- Left rotation of a 32-bit word by `n` bits. -/
def rotl32 (x n : Nat) : Nat :=
  ((x <<< n) % 4294967296) ||| (x >>> (32 - n))

/-- Round constants `K[i] = floor(2^32 * |sin(i+1)|)` of MD5. -/
def md5K : List Nat :=
  [0xd76aa478, 0xe8c7b756, 0x242070db, 0xc1bdceee,
   0xf57c0faf, 0x4787c62a, 0xa8304613, 0xfd469501,
   0x698098d8, 0x8b44f7af, 0xffff5bb1, 0x895cd7be,
   0x6b901122, 0xfd987193, 0xa679438e, 0x49b40821,
   0xf61e2562, 0xc040b340, 0x265e5a51, 0xe9b6c7aa,
   0xd62f105d, 0x02441453, 0xd8a1e681, 0xe7d3fbc8,
   0x21e1cde6, 0xc33707d6, 0xf4d50d87, 0x455a14ed,
   0xa9e3e905, 0xfcefa3f8, 0x676f02d9, 0x8d2a4c8a,
   0xfffa3942, 0x8771f681, 0x6d9d6122, 0xfde5380c,
   0xa4beea44, 0x4bdecfa9, 0xf6bb4b60, 0xbebfbc70,
   0x289b7ec6, 0xeaa127fa, 0xd4ef3085, 0x04881d05,
   0xd9d4d039, 0xe6db99e5, 0x1fa27cf8, 0xc4ac5665,
   0xf4292244, 0x432aff97, 0xab9423a7, 0xfc93a039,
   0x655b59c3, 0x8f0ccc92, 0xffeff47d, 0x85845dd1,
   0x6fa87e4f, 0xfe2ce6e0, 0xa3014314, 0x4e0811a1,
   0xf7537e82, 0xbd3af235, 0x2ad7d2bb, 0xeb86d391]

/-- Per-round left-rotation amounts of MD5. -/
def md5S : List Nat :=
  [7, 12, 17, 22, 7, 12, 17, 22, 7, 12, 17, 22, 7, 12, 17, 22,
   5, 9, 14, 20, 5, 9, 14, 20, 5, 9, 14, 20, 5, 9, 14, 20,
   4, 11, 16, 23, 4, 11, 16, 23, 4, 11, 16, 23, 4, 11, 16, 23,
   6, 10, 15, 21, 6, 10, 15, 21, 6, 10, 15, 21, 6, 10, 15, 21]

/-- Nonlinear function of round `i` of MD5. -/
def md5F (i b c d : Nat) : Nat :=
  if i < 16 then (b &&& c) ||| (not32 b &&& d)
  else if i < 32 then (d &&& b) ||| (not32 d &&& c)
  else if i < 48 then b ^^^ c ^^^ d
  else c ^^^ (b ||| not32 d)

/-- Message-word index of round `i` of MD5. -/
def md5G (i : Nat) : Nat :=
  if i < 16 then i
  else if i < 32 then (5 * i + 1) % 16
  else if i < 48 then (3 * i + 5) % 16
  else (7 * i) % 16

/-- One MD5 round on state `(a, b, c, d)` with message words `m`. -/
def md5Step (m : List Nat) (st : Nat × Nat × Nat × Nat) (i : Nat) :
    Nat × Nat × Nat × Nat :=
  match st with
  | (a, b, c, d) =>
      let f := add32 (add32 (add32 (md5F i b c d) a) (md5K.getD i 0))
        (m.getD (md5G i) 0)
      (d, add32 b (rotl32 f (md5S.getD i 0)), b, c)

/-- Compression of one 16-word block into the running MD5 state. -/
def md5Block (st : Nat × Nat × Nat × Nat) (m : List Nat) :
    Nat × Nat × Nat × Nat :=
  match st, (List.range 64).foldl (md5Step m) st with
  | (a0, b0, c0, d0), (a, b, c, d) =>
      (add32 a0 a, add32 b0 b, add32 c0 c, add32 d0 d)

/-- Little-endian assembly of four bytes into a 32-bit word. -/
def leWord (b0 b1 b2 b3 : Nat) : Nat :=
  b0 + b1 * 256 + b2 * 65536 + b3 * 16777216

/-- Grouping of a byte list into little-endian 32-bit words. -/
def toWords : List Nat → List Nat
  | b0 :: b1 :: b2 :: b3 :: rest => leWord b0 b1 b2 b3 :: toWords rest
  | _ => []

/-- Folding of a word list, 16 words per block, into the MD5 state. -/
def md5Blocks (st : Nat × Nat × Nat × Nat) : List Nat → Nat × Nat × Nat × Nat
  | w0 :: w1 :: w2 :: w3 :: w4 :: w5 :: w6 :: w7 ::
    w8 :: w9 :: w10 :: w11 :: w12 :: w13 :: w14 :: w15 :: rest =>
      md5Blocks (md5Block st
        [w0, w1, w2, w3, w4, w5, w6, w7, w8, w9, w10, w11, w12, w13, w14, w15])
        rest
  | _ => st

/-- Little-endian eight-byte rendering of a 64-bit length. -/
def le8 (n : Nat) : List Nat :=
  [n % 256, n / 256 % 256, n / 65536 % 256, n / 16777216 % 256,
   n / 4294967296 % 256, n / 1099511627776 % 256,
   n / 281474976710656 % 256, n / 72057594037927936 % 256]

/-- MD5 padding: a `0x80` byte, zeros to 56 mod 64, then the bit length. -/
def md5Pad (msg : List Nat) : List Nat :=
  let len := msg.length
  let k := (119 - len % 64) % 64
  msg ++ [0x80] ++ List.replicate k 0 ++ le8 ((8 * len) % 18446744073709551616)

/-- Little-endian four-byte rendering of a 32-bit word. -/
def le4 (n : Nat) : List Nat :=
  [n % 256, n / 256 % 256, n / 65536 % 256, n / 16777216 % 256]

/-- The sixteen digest bytes of MD5 applied to a byte list. -/
def md5Bytes (msg : List Nat) : List Nat :=
  match md5Blocks (0x67452301, 0xefcdab89, 0x98badcfe, 0x10325476)
      (toWords (md5Pad msg)) with
  | (a, b, c, d) => le4 a ++ le4 b ++ le4 c ++ le4 d

/-- Lowercase hexadecimal digit of a value below 16. -/
def hexDigit (n : Nat) : Char :=
  if n < 10 then Char.ofNat (48 + n) else Char.ofNat (87 + n)

/-- Two-digit lowercase hexadecimal rendering of a byte. -/
def byteHex (b : Nat) : List Char := [hexDigit (b / 16), hexDigit (b % 16)]

/-- Model of `hashlib.md5(x).hexdigest()` on a byte list. -/
def md5Hex (msg : List Nat) : String :=
  ⟨(md5Bytes msg).map byteHex |>.flatten⟩

/-! ## Data model (`src/models/layoff.py`) -/

/-- Model of a `LayoffCreate` value after successful pydantic validation. -/
structure LayoffCreate where
  company_name : String
  industry : Option String
  layoff_date : Date
  employees_affected : Option Int
  employees_remaining : Option Int
  source : String
  source_url : String
  country : String
  description : Option String
deriving DecidableEq, Repr

/-- Model of the `layoff_date_not_future` field validator: raise (error)
when the date is strictly after today, return the date otherwise. -/
def layoffDateNotFuture (today v : Date) : Except String Date :=
  if today < v then Except.error "Layoff date cannot be in the future"
  else Except.ok v

/-- Model of the `normalize_company_name` field validator:
`v.strip().title()`. -/
def normalizeCompanyName (v : String) : String := pyTitle (pyStrip v)

/-- Model of constructing `LayoffCreate(...)`: pydantic field constraints
(`min_length=1` on `company_name`, `source`, `source_url`; `ge=0` on the two
employee counts), the future-date validator, and the company-name
normalization side effect. `Except.error` stands for a raised
`ValidationError`. -/
def mkLayoffCreate (today : Date) (company_name : String)
    (industry : Option String) (layoff_date : Date)
    (employees_affected employees_remaining : Option Int)
    (source source_url : String) (country : String)
    (description : Option String) : Except String LayoffCreate :=
  if company_name.length < 1 then
    Except.error "company_name: String should have at least 1 character"
  else if employees_affected.any (fun n => n < 0) then
    Except.error "employees_affected: Input should be greater than or equal to 0"
  else if employees_remaining.any (fun n => n < 0) then
    Except.error "employees_remaining: Input should be greater than or equal to 0"
  else if source.length < 1 then
    Except.error "source: String should have at least 1 character"
  else if source_url.length < 1 then
    Except.error "source_url: String should have at least 1 character"
  else
    match layoffDateNotFuture today layoff_date with
    | Except.error e => Except.error e
    | Except.ok d =>
        Except.ok
          { company_name := normalizeCompanyName company_name
            industry := industry
            layoff_date := d
            employees_affected := employees_affected
            employees_remaining := employees_remaining
            source := source
            source_url := source_url
            country := country
            description := description }

/-- Model of the stored `Layoff` record (database fields included). -/
structure Layoff extends LayoffCreate where
  id : Nat
  unique_id : String
  scraped_at : Nat
deriving DecidableEq, Repr

namespace Layoff

/-- Model of `Layoff.generate_unique_id`: the MD5 hex digest of
`f"{company_name.lower()}_{layoff_date}_{source.lower()}"`. -/
def generate_unique_id (company_name : String) (layoff_date : Date)
    (source : String) : String :=
  md5Hex (strBytes
    (pyLower company_name ++ "_" ++ layoff_date.toIso ++ "_" ++ pyLower source))

/-- Model of `Layoff.from_create`: attach the generated `unique_id`, the
database id, and the scrape timestamp (`datetime.now()` modelled as an
explicit parameter). -/
def from_create (lc : LayoffCreate) (id : Nat) (now : Nat) : Layoff :=
  { toLayoffCreate := lc
    id := id
    unique_id := generate_unique_id lc.company_name lc.layoff_date lc.source
    scraped_at := now }

end Layoff

/-! ## Storage (`src/storage/database.py`)

The `layoffs` table is modelled as a list of rows; `DatabaseManager` holds no
other state relevant to the claims. -/

/-- Model of one row of the `layoffs` table (`LayoffModel`). -/
structure LayoffRow where
  id : Nat
  company_name : String
  industry : Option String
  layoff_date : Date
  employees_affected : Option Int
  employees_remaining : Option Int
  source : String
  source_url : String
  country : String
  description : Option String
  unique_id : String
  scraped_at : Nat
deriving DecidableEq, Repr

/-- Model of the autoincrement primary key: one more than the largest id. -/
def nextId (st : List LayoffRow) : Nat := (st.map LayoffRow.id).foldl max 0 + 1

/-- Model of `DatabaseManager.add_layoff`: compute the record's unique id,
return `none` leaving the table unchanged when a row with that id exists,
otherwise insert a new row and return the created `Layoff`. -/
def addLayoff (st : List LayoffRow) (lc : LayoffCreate) (now : Nat) :
    Option Layoff × List LayoffRow :=
  let uid := Layoff.generate_unique_id lc.company_name lc.layoff_date lc.source
  if st.any (fun r => r.unique_id = uid) then (none, st)
  else
    let row : LayoffRow :=
      { id := nextId st
        company_name := lc.company_name
        industry := lc.industry
        layoff_date := lc.layoff_date
        employees_affected := lc.employees_affected
        employees_remaining := lc.employees_remaining
        source := lc.source
        source_url := lc.source_url
        country := lc.country
        description := lc.description
        unique_id := uid
        scraped_at := now }
    (some (Layoff.from_create lc row.id now), st ++ [row])

/-! ## Base scraper helpers (`src/scrapers/base.py`) -/

/-- Numeric value of a list of decimal digit characters, as Python `int()`. -/
def digitsToNat (cs : List Char) : Nat :=
  cs.foldl (fun a c => 10 * a + (c.toNat - 48)) 0

/-- Model of `BaseScraper._parse_employees_affected`: empty input yields
`None`; otherwise delete `","`, `" "` and `"+"`, keep every digit character
(`filter(str.isdigit, ...)` — all digits of the string, concatenated), and
convert; no digits yields `None`. -/
def parse_employees_affected (count_str : String) : Option Nat :=
  if count_str.isEmpty then none
  else
    let cleaned := pyDeleteChar (pyDeleteChar (pyDeleteChar count_str ',') ' ') '+'
    let digits := cleaned.toList.filter Char.isDigit
    if digits.isEmpty then none else some (digitsToNat digits)

/-- Leftmost maximal digit run of a character list, as matched by the
regular expression `\d+`. -/
def firstDigitRun : List Char → Option (List Char)
  | [] => none
  | c :: cs =>
      if c.isDigit then some (c :: cs.takeWhile Char.isDigit)
      else firstDigitRun cs

/-- Model of the per-scraper magnitude extraction
`re.search(r'(\d+)', s.replace(',', ''))` (Peerlist and OfficePulse rows):
the first contiguous digit run after deleting commas. -/
def extractFirstNumber (s : String) : Option Nat :=
  (firstDigitRun (pyDeleteChar s ',').toList).map digitsToNat

/-! ## The retrying fetch loop (`BaseScraper._fetch_page`)

The transport (`self.session.get` followed by `raise_for_status`) is a
parameter mapping the attempt index to its outcome; the outcome constructors
mirror the three `except` clauses of the source. -/

/-- Outcome of one transport invocation inside `_fetch_page`. -/
inductive FetchOutcome where
  | success (resp : String)
  | httpError (msg : String)
  | requestError (msg : String)
  | otherError (msg : String)
deriving DecidableEq, Repr

/-- Whether the transport outcome is one of the three caught exceptions. -/
def FetchOutcome.isErr : FetchOutcome → Bool
  | .success _ => false
  | _ => true

/-- Message of a failing transport outcome (`str(e)` of the exception). -/
def FetchOutcome.errMsg : FetchOutcome → String
  | .success _ => ""
  | .httpError m => m
  | .requestError m => m
  | .otherError m => m

/-- The `for attempt in range(max_retries)` loop of `_fetch_page`, returning
the result (`Except.error` models the raised `ScrapeError`, `Except.ok none`
the implicit `None` an exhausted loop falls through to) together with the
number of transport invocations made. -/
def fetchPageGo (transport : Nat → FetchOutcome) (maxRetries : Nat) :
    List Nat → Except String (Option String) × Nat
  | [] => (Except.ok none, 0)
  | attempt :: rest =>
      match transport attempt with
      | .success r => (Except.ok (some r), 1)
      | .httpError m =>
          if attempt = maxRetries - 1 then (Except.error ("Failed to fetch after " ++ toString maxRetries ++ " attempts: " ++ m), 1)
          else
            let (res, n) := fetchPageGo transport maxRetries rest
            (res, n + 1)
      | .requestError m =>
          if attempt = maxRetries - 1 then (Except.error ("Failed to fetch after " ++ toString maxRetries ++ " attempts: " ++ m), 1)
          else
            let (res, n) := fetchPageGo transport maxRetries rest
            (res, n + 1)
      | .otherError m =>
          if attempt = maxRetries - 1 then (Except.error ("Failed to fetch after " ++ toString maxRetries ++ " attempts: " ++ m), 1)
          else
            let (res, n) := fetchPageGo transport maxRetries rest
            (res, n + 1)

/-- Model of `BaseScraper._fetch_page` (rate limiting and backoff sleeps,
being pure delays, have no observable effect in this embedding). -/
def fetchPage (transport : Nat → FetchOutcome) (maxRetries : Nat) :
    Except String (Option String) × Nat :=
  fetchPageGo transport maxRetries (List.range maxRetries)

/-! ## `BaseScraper.scrape_and_store` and the scheduler

Exceptions are modelled by `Except`: the adapter's `fetch_layoffs` is an
arbitrary `Except`-valued outcome, the per-record store call an arbitrary
`Except`-valued function, and each `try/except` of the source is an explicit
`match` on such a value. -/

/-- Model of the result dictionary of `scrape_and_store`
(`duration_seconds`, pure wall-clock bookkeeping, is omitted). -/
structure ScrapeResult where
  success : Bool
  records_found : Nat
  records_added : Nat
  errors : List String
deriving DecidableEq, Repr

/-- The per-record storage loop of `scrape_and_store`: each `add_layoff`
call is wrapped in `try/except`, a raised error is recorded and the loop
continues; returns the added count, the recorded errors, and the final
store state. -/
def storeLoop {σ : Type}
    (store : LayoffCreate → σ → Except String (Option Layoff × σ)) :
    List LayoffCreate → σ → Nat × List String × σ
  | [], st => (0, [], st)
  | l :: ls, st =>
      match store l st with
      | Except.ok (created, st') =>
          let (n, errs, st'') := storeLoop store ls st'
          (if created.isSome then n + 1 else n, errs, st'')
      | Except.error e =>
          let (n, errs, st') := storeLoop store ls st
          (n, ("Error storing layoff for " ++ l.company_name ++ ": " ++ e) :: errs, st')

/-- Model of `BaseScraper.scrape_and_store`: fetch, count, early success
on an empty batch, store each record with per-record error capture; the
surrounding `try/except ScrapeError/except Exception` turns a raised fetch
error into a failure result. The function is total: no exception escapes. -/
def scrapeAndStore {σ : Type} (sourceName : String)
    (fetchResult : Except String (List LayoffCreate))
    (store : LayoffCreate → σ → Except String (Option Layoff × σ)) (st : σ) :
    ScrapeResult × σ :=
  match fetchResult with
  | Except.error e =>
      ({ success := false, records_found := 0, records_added := 0,
         errors := ["Scraping error for " ++ sourceName ++ ": " ++ e] }, st)
  | Except.ok layoffs =>
      if layoffs.isEmpty then
        ({ success := true, records_found := layoffs.length,
           records_added := 0, errors := [] }, st)
      else
        let (added, errs, st') := storeLoop store layoffs st
        ({ success := true, records_found := layoffs.length,
           records_added := added, errors := errs }, st')

/-- Model of the dictionary returned by `LayoffScheduler.run_scraper`:
either a scrape result or the `{"success": False, "error": ...}` failure
dictionary. -/
inductive SchedResult where
  | result (r : ScrapeResult)
  | failure (error : String)
deriving DecidableEq, Repr

/-- Model of `LayoffScheduler.run_scraper`, with the registry as an
association list from scraper name to that adapter's fetch outcome. The
codomain is `Except String (SchedResult × σ)` so that a propagated
exception would be expressible as `Except.error`; the source's
`except Exception` handler is the outer `match`. -/
def runScraper {σ : Type}
    (scrapers : List (String × Except String (List LayoffCreate)))
    (store : LayoffCreate → σ → Except String (Option Layoff × σ)) (st : σ)
    (name : String) : Except String (SchedResult × σ) :=
  match scrapers.lookup name with
  | none => Except.ok (SchedResult.failure ("Scraper \x27" ++ name ++ "\x27 not found"), st)
  | some fetchResult =>
      let (r, st') := scrapeAndStore name fetchResult store st
      Except.ok (SchedResult.result r, st')

/-! ## Airtable payloads (`src/scrapers/layoffs_fyi.py`)

Cell values are JSON-like: strings, numbers (Python `int`/`float`, the
numeric values occurring here being integral), lists (multi-select), or
null/missing. A row is the `cellValuesByColumnId` mapping in iteration
order; a column carries its id, name and choice definitions
(`typeOptions.choices`, an id-to-optional-display-name table, empty when
the column defines no choices). -/

inductive JVal where
  | s (v : String)
  | num (v : Int)
  | list (vs : List JVal)
  | null

/-- Python truthiness of a cell value. -/
def JVal.truthy : JVal → Bool
  | .s v => !v.isEmpty
  | .num v => v ≠ 0
  | .list vs => !vs.isEmpty
  | .null => false

mutual

/-- Python `repr` of a cell value (used inside `str()` of a list). -/
def JVal.pyRepr : JVal → String
  | .s v => "\x27" ++ v ++ "\x27"
  | .num v => toString v
  | .list vs => "[" ++ String.intercalate ", " (pyReprList vs) ++ "]"
  | .null => "None"

/-- Element-wise `repr` of a list of cell values. -/
def pyReprList : List JVal → List String
  | [] => []
  | v :: vs => JVal.pyRepr v :: pyReprList vs

end

/-- Python `str()` of a cell value. -/
def JVal.toPyStr : JVal → String
  | .s v => v
  | .num v => toString v
  | .list vs => "[" ++ String.intercalate ", " (pyReprList vs) ++ "]"
  | .null => "None"

/-- One raw Airtable column definition. -/
structure Column where
  id : String
  name : String
  choices : List (String × Option String)
deriving DecidableEq, Repr

/-- One raw Airtable row: `cellValuesByColumnId` as an association list. -/
abbrev AirRow := List (String × JVal)

/-- Splitting of a character list at a separator character, keeping empty
parts, as Python `str.split(sep)` does. -/
def splitOnChar (sep : Char) : List Char → List (List Char)
  | [] => [[]]
  | c :: cs =>
      let r := splitOnChar sep cs
      if c = sep then [] :: r
      else
        match r with
        | h :: t => (c :: h) :: t
        | [] => [[c]]

/-- Model of Python `str.split(sep)` for a single-character separator. -/
def pySplitChar (s : String) (sep : Char) : List String :=
  (splitOnChar sep s.toList).map (fun cs => ⟨cs⟩)

/-- Model of Python `str.startswith(pre)`. -/
def pyStartsWith (s pre : String) : Bool := pre.toList.isPrefixOf s.toList

/-- Model of Python `str.replace(old, new)` for single characters. -/
def pyReplaceChar (s : String) (old new : Char) : String :=
  ⟨s.toList.map (fun c => if c = old then new else c)⟩

/-- Model of Python `str.strip(c)` for a single character argument. -/
def pyStripChar (s : String) (c : Char) : String :=
  ⟨((s.toList.dropWhile (· = c)).reverse.dropWhile (· = c)).reverse⟩

/-- Normalization of a raw column name:
`name.lower().replace(' ', '_').replace('#', '').strip('_')`. -/
def colMapName (name : String) : String :=
  pyStripChar (pyDeleteChar (pyReplaceChar (pyLower name) ' ' '_') '#') '_'

/-- The `column_map` built from the raw columns: column id to normalized
column name. -/
def columnMap (cols : List Column) : List (String × String) :=
  cols.map (fun c => (c.id, colMapName c.name))

/-- Normalized name of a column id under the map, `''` when missing
(`column_map.get(col_id, '')`). -/
def colName (cmap : List (String × String)) (cid : String) : String :=
  (cmap.lookup cid).getD ""

/-- Model of `_resolve_select_value` (the layoffs.fyi variant, which the
LayoffsTracker scrapers repeat verbatim): falsy values resolve to `None`;
a string not starting with `"sel"` is returned as is; otherwise the column
definition is looked up, a known choice id maps to its display name
(falling back to the raw id), a multi-select list joins the resolved
display names with `", "` (`None` when no element resolves), and anything
else falls back to `str(value)`. -/
def resolveSelect (v : JVal) (colId : String) (cols : List Column) :
    Option String :=
  if !v.truthy then none
  else
    match v with
    | .s str =>
        if !(pyStartsWith str "sel") then some str
        else
          match cols.find? (fun c => c.id = colId) with
          | none => some (JVal.toPyStr (.s str))
          | some col =>
              match col.choices.lookup str with
              | some choiceName => some (choiceName.getD str)
              | none => some (JVal.toPyStr (.s str))
    | .list vs =>
        match cols.find? (fun c => c.id = colId) with
        | none => some (JVal.toPyStr (.list vs))
        | some col =>
            let names := vs.filterMap (fun x =>
              match x with
              | .s sid => (col.choices.lookup sid).map (fun nm => nm.getD sid)
              | _ => none)
            if names.isEmpty then none
            else some (String.intercalate ", " names)
    | other => some other.toPyStr

/-- Model of Python `int(s)` on a string: `some` for an optionally
`-`-signed digit string modulo surrounding whitespace, `none` standing for
the raised `ValueError`. -/
def parseIntOpt (s : String) : Option Int :=
  match (pyStrip s).toList with
  | [] => none
  | '-' :: rest =>
      if !rest.isEmpty ∧ rest.all Char.isDigit then
        some (-(digitsToNat rest : Int))
      else none
  | cs => if cs.all Char.isDigit then some (digitsToNat cs : Int) else none

/-- Date part of an ISO `YYYY-MM-DD` string, as `datetime.fromisoformat`
validates it (an invalid string models the caught `ValueError`). -/
def parseIsoDate (s : String) : Option Date :=
  match pySplitChar s '-' with
  | [y, m, d] =>
      if y.length = 4 ∧ m.length = 2 ∧ d.length = 2 ∧
          y.toList.all Char.isDigit ∧ m.toList.all Char.isDigit ∧
          d.toList.all Char.isDigit then
        mkDate (digitsToNat y.toList) (digitsToNat m.toList)
          (digitsToNat d.toList)
      else none
  | _ => none

/-- Model of `_parse_airtable_date`: falsy or non-string values yield
`None`; a string containing `"T"` is parsed as an ISO timestamp and its
date taken (the time component, irrelevant after `.date()`, is not
modelled); otherwise a string containing `"/"` splitting into three parts
is read as `DD/MM/YYYY`; any parse failure is the caught `ValueError` and
yields `None`. -/
def parseAirtableDate (v : JVal) : Option Date :=
  if !v.truthy then none
  else
    match v with
    | .s str =>
        if pyContains str "T" then
          parseIsoDate ⟨str.toList.takeWhile (· ≠ 'T')⟩
        else if pyContains str "/" then
          match pySplitChar str '/' with
          | [p0, p1, p2] =>
              match parseIntOpt p0, parseIntOpt p1, parseIntOpt p2 with
              | some d, some m, some y =>
                  if d < 0 ∨ m < 0 ∨ y < 0 then none
                  else mkDate y.toNat m.toNat d.toNat
              | _, _, _ => none
          | _ => none
        else none
    | _ => none

/-- Company extraction of `_scrape_airtable`: the first cell whose mapped
column name contains `"company"` or `"name"` gives the company (`value` when
a string, `str(value)` when truthy, `None` otherwise); when that leaves the
company falsy, the first string cell value of length `> 1` is used. -/
def extractCompanyFyi (cmap : List (String × String)) (cells : AirRow) :
    Option String :=
  let primary : Option String :=
    match cells.find? (fun p =>
        pyContains (colName cmap p.1) "company" ||
        pyContains (colName cmap p.1) "name") with
    | some (_, JVal.s str) => some str
    | some (_, v) => if v.truthy then some v.toPyStr else none
    | none => none
  match primary with
  | some c =>
      if c.isEmpty then
        cells.findSome? (fun p =>
          match p.2 with
          | JVal.s str => if str.length > 1 then some str else none
          | _ => none)
      else some c
  | none =>
      cells.findSome? (fun p =>
        match p.2 with
        | JVal.s str => if str.length > 1 then some str else none
        | _ => none)

/-- Field values accumulated by the cell loop of `_scrape_airtable`. -/
structure FyiFields where
  employees_affected : Option Int := none
  layoff_date : Option Date := none
  industry : Option String := none
  source_url : Option String := none
  country : Option String := none
  stage : Option String := none
  percentage : Option Int := none

/-- One step of the cell loop of `_scrape_airtable`: the `elif` chain over
the mapped column name, each later assignment overwriting an earlier one. -/
def fyiFieldStep (cols : List Column) (cmap : List (String × String))
    (st : FyiFields) (p : String × JVal) : FyiFields :=
  let cn := colName cmap p.1
  let v := p.2
  if pyContains cn "company" || cn = "name" then st
  else if pyContains cn "laid_off" || pyContains cn "employees" ||
      pyContains cn "affected" || pyContains cn "laid" then
    match v with
    | JVal.num n => { st with employees_affected := some n }
    | _ => st
  else if pyContains cn "date" && !pyContains cn "added" then
    { st with layoff_date := parseAirtableDate v }
  else if pyContains cn "industry" then
    { st with industry := resolveSelect v p.1 cols }
  else if pyContains cn "source" && !pyContains cn "url" then
    match v with
    | JVal.s str => { st with source_url := some str }
    | _ => st
  else if pyContains cn "country" then
    { st with country := resolveSelect v p.1 cols }
  else if pyContains cn "stage" then
    { st with stage := resolveSelect v p.1 cols }
  else if pyContains cn "%" || pyContains cn "percent" then
    match v with
    | JVal.num n => { st with percentage := some n }
    | _ => st
  else st

/-- Record construction of `_scrape_airtable` for one row whose company
has been extracted (so it is truthy and `company[:200]` applies): country
defaulting, the federal overrides, and the `LayoffCreate(...)` call whose
`Except.error` models the `ValidationError` caught by the per-row handler. -/
def buildRowFyi (today : Date) (cols : List Column)
    (cmap : List (String × String)) (sourceName sourceType baseUrl : String)
    (company : String) (cells : AirRow) : Except String LayoffCreate :=
  let f := cells.foldl (fyiFieldStep cols cmap) {}
  let country := match f.country with
    | some c => if c.isEmpty then "US" else c
    | none => "US"
  let industry := if sourceType = "federal" then some "Government" else f.industry
  let country := if sourceType = "federal" then "US" else country
  mkLayoffCreate today (pyTake company 200) industry (f.layoff_date.getD today)
    f.employees_affected none sourceName
    (match f.source_url with
     | some u => if u.isEmpty then baseUrl else u
     | none => baseUrl)
    country
    (match f.stage with
     | some s => if s.isEmpty then none else some ("Stage: " ++ s)
     | none => none)

/-- The row loop of `_scrape_airtable` with its seen-set: rows with no
(truthy) company or with an already-seen raw company are skipped; the raw
company is added to the seen-set before construction, so a row whose
construction raises still blocks later duplicates; a raised per-row error
skips only that row. -/
def scrapeAirtableGo (today : Date) (cols : List Column)
    (cmap : List (String × String)) (sourceName sourceType baseUrl : String) :
    List AirRow → List String → List LayoffCreate
  | [], _ => []
  | cells :: rest, seen =>
      match extractCompanyFyi cmap cells with
      | none => scrapeAirtableGo today cols cmap sourceName sourceType baseUrl rest seen
      | some company =>
          if company ∈ seen then
            scrapeAirtableGo today cols cmap sourceName sourceType baseUrl rest seen
          else
            match buildRowFyi today cols cmap sourceName sourceType baseUrl company cells with
            | Except.ok l =>
                l :: scrapeAirtableGo today cols cmap sourceName sourceType baseUrl rest (company :: seen)
            | Except.error _ =>
                scrapeAirtableGo today cols cmap sourceName sourceType baseUrl rest (company :: seen)

/-- Model of `LayoffsFyiScraper._scrape_airtable`: the empty-payload early
return (`if not raw_rows: return []`), then the row loop starting from an
empty seen-set. -/
def scrapeAirtable (today : Date) (cols : List Column)
    (sourceName sourceType baseUrl : String) (rows : List AirRow) :
    List LayoffCreate :=
  if rows.isEmpty then []
  else scrapeAirtableGo today cols (columnMap cols) sourceName sourceType baseUrl rows []

/-- Ghost companion of `scrapeAirtableGo`: the raw (pre-truncation,
pre-normalization) company strings of the rows that emit a record, in
emission order. -/
def scrapeAirtableRawNames (today : Date) (cols : List Column)
    (cmap : List (String × String)) (sourceName sourceType baseUrl : String) :
    List AirRow → List String → List String
  | [], _ => []
  | cells :: rest, seen =>
      match extractCompanyFyi cmap cells with
      | none => scrapeAirtableRawNames today cols cmap sourceName sourceType baseUrl rest seen
      | some company =>
          if company ∈ seen then
            scrapeAirtableRawNames today cols cmap sourceName sourceType baseUrl rest seen
          else
            match buildRowFyi today cols cmap sourceName sourceType baseUrl company cells with
            | Except.ok _ =>
                company :: scrapeAirtableRawNames today cols cmap sourceName sourceType baseUrl rest (company :: seen)
            | Except.error _ =>
                scrapeAirtableRawNames today cols cmap sourceName sourceType baseUrl rest (company :: seen)

/-! ## LayoffsTracker scrapers (`src/scrapers/additional_sources.py`)

Unlike the layoffs.fyi loop, both LayoffsTracker loops assign the company
inside the same `elif` chain as the other fields (the last matching cell
wins) and test `if not company or company in seen` only after the chain. -/

/-- Field values accumulated by the cell loop of
`LayoffsTrackerScraper.fetch_layoffs`. -/
structure TrackerFields where
  company : Option String := none
  employees_affected : Option Int := none
  layoff_date : Option Date := none
  industry : Option String := none
  source_url : Option String := none
  country : Option String := none
  location : Option String := none

/-- One step of the cell loop of `LayoffsTrackerScraper.fetch_layoffs`. -/
def trackerFieldStep (cols : List Column) (cmap : List (String × String))
    (st : TrackerFields) (p : String × JVal) : TrackerFields :=
  let cn := colName cmap p.1
  let v := p.2
  if pyContains cn "company" then
    { st with company :=
        match v with
        | JVal.s s => some s
        | _ => if v.truthy then some v.toPyStr else none }
  else if pyContains cn "laid_off" || cn = "laid" then
    match v with
    | JVal.num n => { st with employees_affected := some n }
    | _ => st
  else if pyContains cn "date" && !pyContains cn "added" then
    { st with layoff_date := parseAirtableDate v }
  else if pyContains cn "industry" then
    { st with industry := resolveSelect v p.1 cols }
  else if cn = "source" then
    match v with
    | JVal.s s =>
        { st with source_url := if pyStartsWith s "http" then some s else none }
    | _ => st
  else if pyContains cn "country" then
    { st with country := resolveSelect v p.1 cols }
  else if pyContains cn "location" then
    { st with location := resolveSelect v p.1 cols }
  else st

/-- Record construction of `LayoffsTrackerScraper.fetch_layoffs` once the
dedup test has passed (the company is truthy). -/
def buildRowTracker (today : Date) (sourceName baseUrl : String)
    (company : String) (f : TrackerFields) : Except String LayoffCreate :=
  let country := match f.country with
    | some c => if c.isEmpty then "US" else c
    | none => "US"
  mkLayoffCreate today (pyTake company 200) f.industry (f.layoff_date.getD today)
    f.employees_affected none sourceName
    (match f.source_url with
     | some u => if u.isEmpty then baseUrl else u
     | none => baseUrl)
    country
    (match f.location with
     | some l => if l.isEmpty then none else some ("Location: " ++ l)
     | none => none)

/-- The row loop of `LayoffsTrackerScraper.fetch_layoffs`. -/
def trackerGo (today : Date) (cols : List Column)
    (cmap : List (String × String)) (sourceName baseUrl : String) :
    List AirRow → List String → List LayoffCreate
  | [], _ => []
  | cells :: rest, seen =>
      let f := cells.foldl (trackerFieldStep cols cmap) {}
      match f.company with
      | none => trackerGo today cols cmap sourceName baseUrl rest seen
      | some company =>
          if company.isEmpty || company ∈ seen then
            trackerGo today cols cmap sourceName baseUrl rest seen
          else
            match buildRowTracker today sourceName baseUrl company f with
            | Except.ok l =>
                l :: trackerGo today cols cmap sourceName baseUrl rest (company :: seen)
            | Except.error _ =>
                trackerGo today cols cmap sourceName baseUrl rest (company :: seen)

/-- Model of the row-processing of `LayoffsTrackerScraper.fetch_layoffs`
(the empty-payload early return included). -/
def trackerFetch (today : Date) (cols : List Column)
    (sourceName baseUrl : String) (rows : List AirRow) : List LayoffCreate :=
  if rows.isEmpty then []
  else trackerGo today cols (columnMap cols) sourceName baseUrl rows []

/-- Field values accumulated by the cell loop of
`LayoffsTrackerNonTechScraper.fetch_layoffs`. -/
structure NonTechFields where
  company : Option String := none
  employees_affected : Option Int := none
  layoff_date : Option Date := none
  industry : Option String := none
  source_url : Option String := none
  country : Option String := none
  location : Option String := none
  percentage : Option Int := none

/-- One step of the cell loop of
`LayoffsTrackerNonTechScraper.fetch_layoffs`. -/
def nonTechFieldStep (cols : List Column) (cmap : List (String × String))
    (st : NonTechFields) (p : String × JVal) : NonTechFields :=
  let cn := colName cmap p.1
  let v := p.2
  if pyContains cn "company" || cn = "name" then
    { st with company :=
        match v with
        | JVal.s s => some s
        | _ => if v.truthy then some v.toPyStr else none }
  else if pyContains cn "laid_off" || pyContains cn "employees" ||
      pyContains cn "affected" || pyContains cn "laid" then
    match v with
    | JVal.num n => { st with employees_affected := some n }
    | _ => st
  else if pyContains cn "date" && !pyContains cn "added" then
    { st with layoff_date := parseAirtableDate v }
  else if pyContains cn "industry" || pyContains cn "category" ||
      pyContains cn "sector" then
    { st with industry := resolveSelect v p.1 cols }
  else if cn = "source" || pyContains cn "link" || pyContains cn "url" then
    match v with
    | JVal.s s =>
        { st with source_url := if pyStartsWith s "http" then some s else none }
    | _ => st
  else if pyContains cn "country" then
    { st with country := resolveSelect v p.1 cols }
  else if pyContains cn "location" || pyContains cn "hq" ||
      pyContains cn "headquarter" then
    { st with location := resolveSelect v p.1 cols }
  else if pyContains cn "%" || pyContains cn "percent" then
    match v with
    | JVal.num n => { st with percentage := some n }
    | _ => st
  else st

/-- Record construction of `LayoffsTrackerNonTechScraper.fetch_layoffs`. -/
def buildRowNonTech (today : Date) (sourceName baseUrl : String)
    (company : String) (f : NonTechFields) : Except String LayoffCreate :=
  let country := match f.country with
    | some c => if c.isEmpty then "US" else c
    | none => "US"
  let descParts : List String :=
    (match f.location with
     | some l => if l.isEmpty then [] else ["Location: " ++ l]
     | none => []) ++
    (match f.percentage with
     | some p => if p = 0 then [] else ["Percentage: " ++ toString p ++ "%"]
     | none => [])
  mkLayoffCreate today (pyTake company 200) f.industry (f.layoff_date.getD today)
    f.employees_affected none sourceName
    (match f.source_url with
     | some u => if u.isEmpty then baseUrl else u
     | none => baseUrl)
    country
    (if descParts.isEmpty then none else some (String.intercalate "; " descParts))

/-- The row loop of `LayoffsTrackerNonTechScraper.fetch_layoffs`. -/
def nonTechGo (today : Date) (cols : List Column)
    (cmap : List (String × String)) (sourceName baseUrl : String) :
    List AirRow → List String → List LayoffCreate
  | [], _ => []
  | cells :: rest, seen =>
      let f := cells.foldl (nonTechFieldStep cols cmap) {}
      match f.company with
      | none => nonTechGo today cols cmap sourceName baseUrl rest seen
      | some company =>
          if company.isEmpty || company ∈ seen then
            nonTechGo today cols cmap sourceName baseUrl rest seen
          else
            match buildRowNonTech today sourceName baseUrl company f with
            | Except.ok l =>
                l :: nonTechGo today cols cmap sourceName baseUrl rest (company :: seen)
            | Except.error _ =>
                nonTechGo today cols cmap sourceName baseUrl rest (company :: seen)

/-- Model of the row-processing of
`LayoffsTrackerNonTechScraper.fetch_layoffs`. -/
def nonTechFetch (today : Date) (cols : List Column)
    (sourceName baseUrl : String) (rows : List AirRow) : List LayoffCreate :=
  if rows.isEmpty then []
  else nonTechGo today cols (columnMap cols) sourceName baseUrl rows []

/-! ## OfficePulse scraper (`OfficePulseScraper` in
`src/scrapers/additional_sources.py`) -/

/-- The `value` dictionary of one Ninja Tables record; each field is
`none` when the key is absent. -/
structure PulseValue where
  company : Option String := none
  laidoff : Option String := none
  layofftimeline : Option String := none
  laidoffcountry : Option String := none
  headquarter : Option String := none
  source : Option String := none
  status : Option String := none
  laidoff_1 : Option String := none
  industry : Option String := none

/-- The month-name table of `_parse_timeline`. -/
def pulseMonthMap : List (String × Nat) :=
  [("jan", 1), ("january", 1), ("feb", 2), ("february", 2),
   ("mar", 3), ("march", 3), ("apr", 4), ("april", 4), ("may", 5),
   ("jun", 6), ("june", 6), ("jul", 7), ("july", 7),
   ("aug", 8), ("august", 8), ("sep", 9), ("sept", 9), ("september", 9),
   ("oct", 10), ("october", 10), ("nov", 11), ("november", 11),
   ("dec", 12), ("december", 12)]

/-- Model of `OfficePulseScraper._parse_timeline` on `"Month-YY"` markers:
split on `"-"`, widen a two-digit year to `2000 + year`, look the month
name up with default `1`, and build the first day of that month; a raised
`ValueError` (bad year literal or invalid date) yields `None`. -/
def parseTimeline (timeline : Option String) : Option Date :=
  match timeline with
  | none => none
  | some t =>
      if t.isEmpty then none
      else
        match pySplitChar t '-' with
        | [monthStr, yearStr] =>
            match parseIntOpt (pyStrip yearStr) with
            | none => none
            | some y =>
                let y := if y < 100 then 2000 + y else y
                let m := (pulseMonthMap.lookup (pyLower (pyStrip monthStr))).getD 1
                mkDate y.toNat m 1
        | _ => none

/-- Model of `re.search(r'href="([^"]+)"', html)`: the first
`href="..."` occurrence with a nonempty quoted part, scanning left to
right. -/
def findHref : List Char → Option String
  | [] => none
  | c :: cs =>
      if (c :: cs).take 6 = ['h', 'r', 'e', 'f', '=', '"'] then
        let rest := (c :: cs).drop 6
        let cap := rest.takeWhile (· ≠ '"')
        if !cap.isEmpty ∧ cap.length < rest.length then some ⟨cap⟩
        else findHref cs
      else findHref cs

/-- Record construction of `OfficePulseScraper.fetch_layoffs` for one
record whose stripped company is nonempty: magnitude extraction with the
`"Silent Firing"` sentinels, timeline parsing, the Global-country
fallback, source-URL extraction from the anchor HTML, and the description
parts. -/
def buildRowPulse (today : Date) (sourceName baseUrl : String)
    (company : String) (v : PulseValue) : Except String LayoffCreate :=
  let employeesStr := v.laidoff.getD ""
  let employees : Option Nat :=
    if !employeesStr.isEmpty ∧ employeesStr ≠ "Silent Firing" ∧
        employeesStr ≠ "Silent firing" then
      extractFirstNumber employeesStr
    else none
  let layoffDate := parseTimeline v.layofftimeline
  let country :=
    let c := v.laidoffcountry.getD "India"
    if c = "Global" then v.headquarter.getD "US" else c
  let sourceUrl :=
    let html := v.source.getD ""
    if html.isEmpty then baseUrl
    else (findHref html.toList).getD baseUrl
  let status := v.status.getD ""
  let percentage := v.laidoff_1.getD ""
  let descParts : List String :=
    (if status.isEmpty then [] else ["Status: " ++ status]) ++
    (if percentage.isEmpty then [] else ["Percentage: " ++ percentage])
  mkLayoffCreate today (pyTake company 200) v.industry (layoffDate.getD today)
    (employees.map Int.ofNat) none sourceName sourceUrl country
    (if descParts.isEmpty then none else some (String.intercalate "; " descParts))

/-- The record loop of `OfficePulseScraper.fetch_layoffs` with its
seen-set and per-record exception handler. -/
def officePulseGo (today : Date) (sourceName baseUrl : String) :
    List PulseValue → List String → List LayoffCreate
  | [], _ => []
  | v :: rest, seen =>
      let company := pyStrip (v.company.getD "")
      if company.isEmpty || company ∈ seen then
        officePulseGo today sourceName baseUrl rest seen
      else
        match buildRowPulse today sourceName baseUrl company v with
        | Except.ok l =>
            l :: officePulseGo today sourceName baseUrl rest (company :: seen)
        | Except.error _ =>
            officePulseGo today sourceName baseUrl rest (company :: seen)

/-- Model of the record-processing of `OfficePulseScraper.fetch_layoffs`. -/
def officePulseFetch (today : Date) (sourceName baseUrl : String)
    (records : List PulseValue) : List LayoffCreate :=
  officePulseGo today sourceName baseUrl records []

/-- Whether a row of the layoffs.fyi loop, processed against a fresh
seen-set, yields a record: its company extracts and record construction
succeeds. -/
def rowOkFyi (today : Date) (cols : List Column) (cmap : List (String × String))
    (sn sty bu : String) (cells : AirRow) : Bool :=
  match extractCompanyFyi cmap cells with
  | none => false
  | some company =>
      match buildRowFyi today cols cmap sn sty bu company cells with
      | Except.ok _ => true
      | Except.error _ => false

/-- A concrete valid record, for concrete upsert instantiations. -/
def lcAcme : LayoffCreate :=
  { company_name := "Acme", industry := none, layoff_date := ⟨2024, 3, 10⟩,
    employees_affected := some 1000, employees_remaining := none,
    source := "layoffs.fyi", source_url := "https://layoffs.fyi/",
    country := "US", description := none }

/-- Concrete column definitions of a ten-row payload instance. -/
def c6Cols : List Column := [⟨"c1", "Company", []⟩, ⟨"c2", "Laid Off", []⟩]

/-- A concrete ten-row payload whose fifth row carries a negative
magnitude, so that exactly that row raises a `ValidationError` during
record construction. -/
def c6Rows : List AirRow :=
  [[("c1", JVal.s "C01"), ("c2", JVal.num 10)],
   [("c1", JVal.s "C02"), ("c2", JVal.num 20)],
   [("c1", JVal.s "C03"), ("c2", JVal.num 30)],
   [("c1", JVal.s "C04"), ("c2", JVal.num 40)],
   [("c1", JVal.s "C05"), ("c2", JVal.num (-5))],
   [("c1", JVal.s "C06"), ("c2", JVal.num 60)],
   [("c1", JVal.s "C07"), ("c2", JVal.num 70)],
   [("c1", JVal.s "C08"), ("c2", JVal.num 80)],
   [("c1", JVal.s "C09"), ("c2", JVal.num 90)],
   [("c1", JVal.s "C10"), ("c2", JVal.num 100)]]

/-! # Supporting lemmas -/

/-- Sanity check of the MD5 model on the RFC 1321 test vector for the
empty message. -/
theorem md5Hex_nil : md5Hex [] = "d41d8cd98f00b204e9800998ecf8427e" := by decide

/-- Sanity check of the MD5 model on the RFC 1321 test vector for "abc". -/
theorem md5Hex_abc :
    md5Hex (strBytes "abc") = "900150983cd24fb0d6963f7d28e17f72" := by decide

/-- Totality of the date order: not-less-than is the reverse order. -/
theorem Date.not_lt_iff (a b : Date) : ¬ a < b ↔ b ≤ a := by
  obtain ⟨y1, m1, d1⟩ := a
  obtain ⟨y2, m2, d2⟩ := b
  unfold LE.le instLEDate Date.le LT.lt instLTDate Date.lt
  simp only [Date.mk.injEq]
  constructor <;> intro h <;> omega

/-! # Claim C1 — identity-key casing and whitespace sensitivity -/

/-- Claim C1, counterexample: `generate_unique_id` is NOT insensitive to
surrounding whitespace of the entity name — at the concrete date
2024-01-01, `" google "` and `"Google"` produce different identity keys,
because the function lowercases its inputs but never strips them. -/
theorem C1_counterexample :
    Layoff.generate_unique_id " google " ⟨2024, 1, 1⟩ "src" ≠
    Layoff.generate_unique_id "Google" ⟨2024, 1, 1⟩ "src" := by decide

/-- Claim C1, amended: `generate_unique_id` is insensitive to the casing
of the entity name and of the source id (inputs with equal lowercasings
produce equal keys, for every date), but not to surrounding whitespace. -/
theorem C1_amended_case_insensitive (n1 n2 s1 s2 : String) (d : Date)
    (hn : pyLower n1 = pyLower n2) (hs : pyLower s1 = pyLower s2) :
    Layoff.generate_unique_id n1 d s1 = Layoff.generate_unique_id n2 d s2 := by
  simp only [Layoff.generate_unique_id, hn, hs]

/-- Claim C1, witness: the amended theorem at the claim's own inputs —
`"Google"/"src"` and `"GOOGLE"/"SRC"` at 2024-01-01 give equal keys. -/
theorem C1_witness :
    Layoff.generate_unique_id "Google" ⟨2024, 1, 1⟩ "src" =
    Layoff.generate_unique_id "GOOGLE" ⟨2024, 1, 1⟩ "SRC" :=
  C1_amended_case_insensitive "Google" "GOOGLE" "src" "SRC" ⟨2024, 1, 1⟩
    (by decide) (by decide)

/-! # Claim C7 — future-date rejection -/

/-- Claim C7: the `layoff_date_not_future` validator accepts a date
exactly when it is not strictly later than today — every date ≤ today
passes, and every strictly future date raises. -/
theorem C7_future_date_rejection (today v : Date) :
    (layoffDateNotFuture today v = Except.ok v ↔ v ≤ today) ∧
    (layoffDateNotFuture today v =
        Except.error "Layoff date cannot be in the future" ↔ today < v) := by
  unfold layoffDateNotFuture
  by_cases h : today < v
  · simp only [if_pos h]
    constructor
    · constructor
      · intro hc; cases hc
      · intro hle; exact absurd h ((Date.not_lt_iff today v).mpr hle)
    · simp [h]
  · simp only [if_neg h]
    constructor
    · simp [(Date.not_lt_iff today v).mp h]
    · constructor
      · intro hc; cases hc
      · intro hlt; exact absurd hlt h

/-- Claim C7, witness: at today = 2024-03-10, the validator accepts
2024-03-10 (today) and 2024-03-09, and rejects 2024-03-11 (tomorrow). -/
theorem C7_witness :
    layoffDateNotFuture ⟨2024, 3, 10⟩ ⟨2024, 3, 10⟩ = Except.ok ⟨2024, 3, 10⟩ ∧
    layoffDateNotFuture ⟨2024, 3, 10⟩ ⟨2024, 3, 9⟩ = Except.ok ⟨2024, 3, 9⟩ ∧
    layoffDateNotFuture ⟨2024, 3, 10⟩ ⟨2024, 3, 11⟩ =
      Except.error "Layoff date cannot be in the future" :=
  ⟨(C7_future_date_rejection ⟨2024, 3, 10⟩ ⟨2024, 3, 10⟩).1.mpr (by decide),
   (C7_future_date_rejection ⟨2024, 3, 10⟩ ⟨2024, 3, 9⟩).1.mpr (by decide),
   (C7_future_date_rejection ⟨2024, 3, 10⟩ ⟨2024, 3, 11⟩).2.mpr (by decide)⟩

/-! # Claim C8 — retry policy of `_fetch_page` -/

/-- Claim C8, counterexample: a transport that always fails with a
malformed-request error (`requests.exceptions.RequestException`, e.g. an
invalid URL) is invoked 3 times by `_fetch_page` under the default
`MAX_RETRIES = 3`, not exactly once: every exception kind is retried. -/
theorem C8_counterexample :
    (fetchPage (fun _ => FetchOutcome.requestError "No scheme supplied") 3).2 = 3 ∧
    (fetchPage (fun _ => FetchOutcome.requestError "No scheme supplied") 3).2 ≠ 1 := by
  decide

/-- Unfolding of one failing iteration of the `_fetch_page` loop: any
caught error either raises (on the last attempt) or retries. -/
theorem fetchPageGo_cons_err (transport : Nat → FetchOutcome)
    (mr attempt : Nat) (rest : List Nat)
    (herr : (transport attempt).isErr = true) :
    fetchPageGo transport mr (attempt :: rest) =
      if attempt = mr - 1 then
        (Except.error ("Failed to fetch after " ++ toString mr ++ " attempts: "
          ++ (transport attempt).errMsg), 1)
      else
        ((fetchPageGo transport mr rest).1, (fetchPageGo transport mr rest).2 + 1) := by
  cases ht : transport attempt <;>
    simp_all [fetchPageGo, FetchOutcome.isErr, FetchOutcome.errMsg]

/-- Claim C8, amended: `_fetch_page` retries every caught error kind alike
(HTTP errors, request errors such as malformed URLs, and unexpected
errors): under the default `MAX_RETRIES = 3`, any transport that fails on
all three attempts is invoked exactly 3 times and a `ScrapeError` is then
raised. -/
theorem C8_amended_retries_all_errors (transport : Nat → FetchOutcome)
    (h : ∀ i, i < 3 → (transport i).isErr = true) :
    (fetchPage transport 3).2 = 3 ∧
    ∃ m, (fetchPage transport 3).1 = Except.error m := by
  unfold fetchPage
  rw [show List.range 3 = [0, 1, 2] from rfl]
  rw [fetchPageGo_cons_err transport 3 0 [1, 2] (h 0 (by omega)),
    fetchPageGo_cons_err transport 3 1 [2] (h 1 (by omega)),
    fetchPageGo_cons_err transport 3 2 [] (h 2 (by omega))]
  simp

/-- Claim C8, witness: the amended theorem at the always-failing
malformed-request transport. -/
theorem C8_witness :
    (fetchPage (fun _ => FetchOutcome.requestError "No scheme supplied") 3).2 = 3 ∧
    ∃ m, (fetchPage (fun _ => FetchOutcome.requestError "No scheme supplied") 3).1 =
      Except.error m :=
  C8_amended_retries_all_errors (fun _ => FetchOutcome.requestError "No scheme supplied")
    (fun _ _ => rfl)

/-! # Claim C9 — zero rows from a source -/

/-- Claim C9, counterexample: when the Airtable view returns zero raw rows,
`_scrape_airtable` returns the empty list (it does not raise), and
`scrape_and_store` records the run as a SUCCESS with zero records — not as
the adapter's failure the claim describes. -/
theorem C9_counterexample :
    (scrapeAndStore "layoffs.fyi"
        (Except.ok (scrapeAirtable ⟨2024, 1, 1⟩ [] "layoffs.fyi" "tech"
          "https://layoffs.fyi/" []))
        (fun lc st => Except.ok (addLayoff st lc 0)) ([] : List LayoffRow)).1 =
      { success := true, records_found := 0, records_added := 0, errors := [] } := by
  decide

/-- Claim C9, amended: a fetch that returns zero rows yields the empty
record list (`if not raw_rows: return []`), and `scrape_and_store` on an
empty batch reports `success = true` with `records_found = 0`, leaving the
store untouched — a warning is logged but the run is not a failure. -/
theorem C9_amended_zero_rows {σ : Type} (today : Date) (cols : List Column)
    (sourceName sourceType baseUrl : String)
    (store : LayoffCreate → σ → Except String (Option Layoff × σ)) (st : σ) :
    scrapeAirtable today cols sourceName sourceType baseUrl [] = [] ∧
    scrapeAndStore sourceName (Except.ok []) store st =
      ({ success := true, records_found := 0, records_added := 0, errors := [] }, st) := by
  constructor
  · rfl
  · rfl

/-! # Claim C3 — magnitude extraction -/

/-- Claim C3, counterexample: `_parse_employees_affected` does NOT take
the first contiguous digit run — on `"700 (15%)"` it concatenates every
digit character and returns 70015, not the 700 the claim states. -/
theorem C3_counterexample :
    parse_employees_affected "700 (15%)" = some 70015 ∧
    parse_employees_affected "700 (15%)" ≠ some 700 := by decide

/-- Claim C3, amended: the shared parser `_parse_employees_affected`
concatenates every digit character after deleting `","`, `" "` and `"+"`
(`"1,250+"` → 1250, but `"700 (15%)"` → 70015), and on any input with no
digit character it returns `None` without raising; the
first-contiguous-digit-run behaviour (`"700 (15%)"` → 700) is the one
implemented by the per-scraper regex extraction of the Peerlist and
OfficePulse scrapers. -/
theorem C3_amended (s : String)
    (hnd : s.toList.all (fun c => !c.isDigit) = true) :
    parse_employees_affected s = none ∧
    parse_employees_affected "1,250+" = some 1250 ∧
    parse_employees_affected "700 (15%)" = some 70015 ∧
    extractFirstNumber "700 (15%)" = some 700 ∧
    extractFirstNumber "1,250+" = some 1250 ∧
    extractFirstNumber "Silent Firing" = none := by
  refine ⟨?_, by decide, by decide, by decide, by decide, by decide⟩
  unfold parse_employees_affected
  split
  · rfl
  · simp only [List.isEmpty_eq_true, List.filter_eq_nil_iff]
    rw [if_pos]
    intro a ha
    have hcs : a ∈ s.toList :=
      (List.mem_filter.mp (List.mem_filter.mp (List.mem_filter.mp ha).1).1).1
    have := List.all_eq_true.mp hnd a hcs
    simpa using this

/-- Claim C3, witness: the amended theorem at the digitless sentinel
`"Silent Firing"`. -/
theorem C3_witness :
    parse_employees_affected "Silent Firing" = none ∧
    parse_employees_affected "1,250+" = some 1250 ∧
    parse_employees_affected "700 (15%)" = some 70015 ∧
    extractFirstNumber "700 (15%)" = some 700 ∧
    extractFirstNumber "1,250+" = some 1250 ∧
    extractFirstNumber "Silent Firing" = none :=
  C3_amended "Silent Firing" (by decide)

/-! # Claim C5 — `run_scraper` totality -/

/-- Claim C5: running one adapter never propagates an exception — for
every registry, every adapter fetch behaviour and every per-record store
behaviour, `run_scraper` evaluates to `Except.ok` of a result dictionary,
and an unknown adapter name yields the not-found failure result rather
than a raised error. -/
theorem C5_run_scraper_total :
    (∀ (σ : Type) (scrapers : List (String × Except String (List LayoffCreate)))
        (store : LayoffCreate → σ → Except String (Option Layoff × σ)) (st : σ)
        (name : String),
        ∃ p, runScraper scrapers store st name = Except.ok p) ∧
    (∀ (σ : Type) (scrapers : List (String × Except String (List LayoffCreate)))
        (store : LayoffCreate → σ → Except String (Option Layoff × σ)) (st : σ)
        (name : String), scrapers.lookup name = none →
        runScraper scrapers store st name =
          Except.ok (SchedResult.failure ("Scraper \x27" ++ name ++ "\x27 not found"), st)) := by
  constructor
  · intro σ scrapers store st name
    unfold runScraper
    cases scrapers.lookup name
    · exact ⟨_, rfl⟩
    · exact ⟨_, rfl⟩
  · intro σ scrapers store st name hl
    unfold runScraper
    rw [hl]

/-- Claim C5, witness: on an empty registry, requesting `"peerlist"`
returns the not-found failure dictionary inside `Except.ok`. -/
theorem C5_witness :
    runScraper (σ := List LayoffRow) []
        (fun lc st => Except.ok (addLayoff st lc 0)) [] "peerlist" =
      Except.ok (SchedResult.failure ("Scraper \x27" ++ "peerlist" ++ "\x27 not found"), []) :=
  C5_run_scraper_total.2 (List LayoffRow) []
    (fun lc st => Except.ok (addLayoff st lc 0)) [] "peerlist" rfl

/-! # Claim C2 — upsert idempotence -/

/-- Claim C2, counterexample: the claim quantifies over every store
state, but on a store that already holds a row with the record's identity
key (here: the store produced by upserting the record into the empty
store) the first of the two calls does not insert and returns `None`, not
the created record. -/
theorem C2_counterexample :
    (addLayoff (addLayoff [] lcAcme 0).2 lcAcme 1).1 = none := by decide

/-- Claim C2, amended: for every valid record and every store state with
no row carrying the record's identity key, upserting twice stores exactly
one row with that key: the first call inserts and returns the created
record, the second call returns `None` with no error and leaves the store
unchanged. (On a store already holding the key, both calls return `None`
and change nothing.) -/
theorem C2_amended_upsert_idempotent (st : List LayoffRow) (lc : LayoffCreate)
    (n1 n2 : Nat)
    (h : st.all (fun r => r.unique_id ≠
      Layoff.generate_unique_id lc.company_name lc.layoff_date lc.source) = true) :
    (addLayoff st lc n1).1 = some (Layoff.from_create lc (nextId st) n1) ∧
    (addLayoff (addLayoff st lc n1).2 lc n2).1 = none ∧
    (addLayoff (addLayoff st lc n1).2 lc n2).2 = (addLayoff st lc n1).2 ∧
    ((addLayoff st lc n1).2.filter (fun r => r.unique_id =
      Layoff.generate_unique_id lc.company_name lc.layoff_date lc.source)).length = 1 := by
  have hall : ∀ r ∈ st, ¬ (r.unique_id =
      Layoff.generate_unique_id lc.company_name lc.layoff_date lc.source) := by
    intro r hr
    have := List.all_eq_true.mp h r hr
    simpa using this
  have hany : (st.any (fun r => r.unique_id =
      Layoff.generate_unique_id lc.company_name lc.layoff_date lc.source)) = false := by
    rw [List.any_eq_false]
    intro r hr
    simpa using hall r hr
  have hfil : (st.filter (fun r => r.unique_id =
      Layoff.generate_unique_id lc.company_name lc.layoff_date lc.source)) = [] := by
    rw [List.filter_eq_nil_iff]
    intro r hr
    simpa using hall r hr
  simp only [addLayoff, hany, Bool.false_eq_true, if_false, List.any_append,
    List.any_cons, List.any_nil, decide_True, Bool.or_true, if_true,
    List.filter_append, hfil, List.filter_cons, List.filter_nil]
  simp

/-- Claim C2, witness: the amended theorem at the empty store and the
concrete record. -/
theorem C2_witness :
    (addLayoff [] lcAcme 0).1 = some (Layoff.from_create lcAcme (nextId []) 0) ∧
    (addLayoff (addLayoff [] lcAcme 0).2 lcAcme 1).1 = none ∧
    (addLayoff (addLayoff [] lcAcme 0).2 lcAcme 1).2 = (addLayoff [] lcAcme 0).2 ∧
    ((addLayoff [] lcAcme 0).2.filter (fun r => r.unique_id =
      Layoff.generate_unique_id lcAcme.company_name lcAcme.layoff_date lcAcme.source)).length = 1 :=
  C2_amended_upsert_idempotent [] lcAcme 0 1 (by decide)

/-! # Supporting lemmas — company-name normalization and truncation -/

/-- The company name of a successfully validated record is the normalized
input name. -/
theorem mkLayoffCreate_company_name {today : Date} {cn : String}
    {ind : Option String} {ld : Date} {ea er : Option Int}
    {src surl ctry : String} {desc : Option String} {l : LayoffCreate}
    (h : mkLayoffCreate today cn ind ld ea er src surl ctry desc = Except.ok l) :
    l.company_name = normalizeCompanyName cn := by
  unfold mkLayoffCreate at h
  split at h
  · cases h
  · split at h
    · cases h
    · split at h
      · cases h
      · split at h
        · cases h
        · split at h
          · cases h
          · split at h
            · cases h
            · cases h
              rfl

/-- Python title-casing preserves the character count. -/
theorem pyTitleGo_length (cs : List Char) : ∀ b, (pyTitleGo cs b).length = cs.length := by
  induction cs with
  | nil => intro b; rfl
  | cons c cs ih =>
      intro b
      unfold pyTitleGo
      split <;> simp [ih]

/-- Company-name normalization (strip + title) never lengthens a string. -/
theorem normalizeCompanyName_length (s : String) :
    (normalizeCompanyName s).length ≤ s.length := by
  show (pyTitleGo
    (((s.toList.dropWhile Char.isWhitespace).reverse.dropWhile
      Char.isWhitespace).reverse) false).length ≤ s.toList.length
  rw [pyTitleGo_length]
  calc (((s.toList.dropWhile Char.isWhitespace).reverse.dropWhile
        Char.isWhitespace).reverse).length
      = ((s.toList.dropWhile Char.isWhitespace).reverse.dropWhile
        Char.isWhitespace).length := List.length_reverse _
    _ ≤ (s.toList.dropWhile Char.isWhitespace).reverse.length :=
        (List.dropWhile_sublist _).length_le
    _ = (s.toList.dropWhile Char.isWhitespace).length := List.length_reverse _
    _ ≤ s.toList.length := (List.dropWhile_sublist _).length_le

/-- Python slicing `s[:n]` yields at most `n` characters. -/
theorem pyTake_length (s : String) (n : Nat) : (pyTake s n).length ≤ n := by
  show (s.toList.take n).length ≤ n
  simp [List.length_take]

/-- The record built by the layoffs.fyi loop has the normalized truncated
company name. -/
theorem buildRowFyi_company {today : Date} {cols : List Column}
    {cmap : List (String × String)} {sn sty bu company : String}
    {cells : AirRow} {l : LayoffCreate}
    (h : buildRowFyi today cols cmap sn sty bu company cells = Except.ok l) :
    l.company_name = normalizeCompanyName (pyTake company 200) := by
  unfold buildRowFyi at h
  exact mkLayoffCreate_company_name h

/-- Records built by the layoffs.fyi loop keep at most 200 characters. -/
theorem buildRowFyi_company_le {today : Date} {cols : List Column}
    {cmap : List (String × String)} {sn sty bu company : String}
    {cells : AirRow} {l : LayoffCreate}
    (h : buildRowFyi today cols cmap sn sty bu company cells = Except.ok l) :
    l.company_name.length ≤ 200 := by
  rw [buildRowFyi_company h]
  exact le_trans (normalizeCompanyName_length _) (pyTake_length _ _)

/-- Records built by the LayoffsTracker loop keep at most 200 characters. -/
theorem buildRowTracker_company_le {today : Date} {sn bu company : String}
    {f : TrackerFields} {l : LayoffCreate}
    (h : buildRowTracker today sn bu company f = Except.ok l) :
    l.company_name.length ≤ 200 := by
  unfold buildRowTracker at h
  rw [mkLayoffCreate_company_name h]
  exact le_trans (normalizeCompanyName_length _) (pyTake_length _ _)

/-- Records built by the non-tech LayoffsTracker loop keep at most 200
characters. -/
theorem buildRowNonTech_company_le {today : Date} {sn bu company : String}
    {f : NonTechFields} {l : LayoffCreate}
    (h : buildRowNonTech today sn bu company f = Except.ok l) :
    l.company_name.length ≤ 200 := by
  unfold buildRowNonTech at h
  rw [mkLayoffCreate_company_name h]
  exact le_trans (normalizeCompanyName_length _) (pyTake_length _ _)

/-- Records built by the OfficePulse loop keep at most 200 characters. -/
theorem buildRowPulse_company_le {today : Date} {sn bu company : String}
    {v : PulseValue} {l : LayoffCreate}
    (h : buildRowPulse today sn bu company v = Except.ok l) :
    l.company_name.length ≤ 200 := by
  unfold buildRowPulse at h
  rw [mkLayoffCreate_company_name h]
  exact le_trans (normalizeCompanyName_length _) (pyTake_length _ _)

/-- Every record emitted by the layoffs.fyi row loop has a company name of
at most 200 characters, for every seen-set. -/
theorem scrapeAirtableGo_company_le (today : Date) (cols : List Column)
    (cmap : List (String × String)) (sn sty bu : String) :
    ∀ (rows : List AirRow) (seen : List String) (l : LayoffCreate),
      l ∈ scrapeAirtableGo today cols cmap sn sty bu rows seen →
      l.company_name.length ≤ 200 := by
  intro rows
  induction rows with
  | nil => intro seen l hl; cases hl
  | cons cells rest ih =>
      intro seen l hl
      simp only [scrapeAirtableGo] at hl
      split at hl
      · exact ih _ _ hl
      · split at hl
        · exact ih _ _ hl
        · split at hl
          next hbuild =>
            rcases List.mem_cons.mp hl with h1 | h1
            · subst h1; exact buildRowFyi_company_le hbuild
            · exact ih _ _ h1
          next => exact ih _ _ hl

/-- Every record emitted by the LayoffsTracker row loop has a company name
of at most 200 characters, for every seen-set. -/
theorem trackerGo_company_le (today : Date) (cols : List Column)
    (cmap : List (String × String)) (sn bu : String) :
    ∀ (rows : List AirRow) (seen : List String) (l : LayoffCreate),
      l ∈ trackerGo today cols cmap sn bu rows seen →
      l.company_name.length ≤ 200 := by
  intro rows
  induction rows with
  | nil => intro seen l hl; cases hl
  | cons cells rest ih =>
      intro seen l hl
      simp only [trackerGo] at hl
      split at hl
      · exact ih _ _ hl
      · split at hl
        · exact ih _ _ hl
        · split at hl
          next hbuild =>
            rcases List.mem_cons.mp hl with h1 | h1
            · subst h1; exact buildRowTracker_company_le hbuild
            · exact ih _ _ h1
          next => exact ih _ _ hl

/-- Every record emitted by the non-tech LayoffsTracker row loop has a
company name of at most 200 characters, for every seen-set. -/
theorem nonTechGo_company_le (today : Date) (cols : List Column)
    (cmap : List (String × String)) (sn bu : String) :
    ∀ (rows : List AirRow) (seen : List String) (l : LayoffCreate),
      l ∈ nonTechGo today cols cmap sn bu rows seen →
      l.company_name.length ≤ 200 := by
  intro rows
  induction rows with
  | nil => intro seen l hl; cases hl
  | cons cells rest ih =>
      intro seen l hl
      simp only [nonTechGo] at hl
      split at hl
      · exact ih _ _ hl
      · split at hl
        · exact ih _ _ hl
        · split at hl
          next hbuild =>
            rcases List.mem_cons.mp hl with h1 | h1
            · subst h1; exact buildRowNonTech_company_le hbuild
            · exact ih _ _ h1
          next => exact ih _ _ hl

/-- Every record emitted by the OfficePulse record loop has a company name
of at most 200 characters, for every seen-set. -/
theorem officePulseGo_company_le (today : Date) (sn bu : String) :
    ∀ (recs : List PulseValue) (seen : List String) (l : LayoffCreate),
      l ∈ officePulseGo today sn bu recs seen →
      l.company_name.length ≤ 200 := by
  intro recs
  induction recs with
  | nil => intro seen l hl; cases hl
  | cons v rest ih =>
      intro seen l hl
      simp only [officePulseGo] at hl
      split at hl
      · exact ih _ _ hl
      · split at hl
        next hbuild =>
          rcases List.mem_cons.mp hl with h1 | h1
          · subst h1; exact buildRowPulse_company_le hbuild
          · exact ih _ _ h1
        next => exact ih _ _ hl

/-! # Claim C10 — 200-character company-name truncation -/

/-- Claim C10: every record emitted by the Airtable-based row loops
(layoffs.fyi tech/federal, layoffstracker.com tech and non-tech) and by
the officepulse.live record loop has a company name of at most 200
characters — the raw upstream name is truncated to its first 200
characters (`company[:200]`) before the record is constructed and
validated, and validation can only shorten it further. -/
theorem C10_company_name_truncation (today : Date) (cols : List Column)
    (sn sty bu : String) (rows : List AirRow) (recs : List PulseValue) :
    ((scrapeAirtable today cols sn sty bu rows).all
      (fun l => l.company_name.length ≤ 200)) = true ∧
    ((trackerFetch today cols sn bu rows).all
      (fun l => l.company_name.length ≤ 200)) = true ∧
    ((nonTechFetch today cols sn bu rows).all
      (fun l => l.company_name.length ≤ 200)) = true ∧
    ((officePulseFetch today sn bu recs).all
      (fun l => l.company_name.length ≤ 200)) = true := by
  refine ⟨?_, ?_, ?_, ?_⟩ <;> rw [List.all_eq_true] <;> intro l hl <;>
    simp only [decide_eq_true_eq]
  · unfold scrapeAirtable at hl
    split at hl
    · cases hl
    · exact scrapeAirtableGo_company_le today cols (columnMap cols) sn sty bu rows [] l hl
  · unfold trackerFetch at hl
    split at hl
    · cases hl
    · exact trackerGo_company_le today cols (columnMap cols) sn bu rows [] l hl
  · unfold nonTechFetch at hl
    split at hl
    · cases hl
    · exact nonTechGo_company_le today cols (columnMap cols) sn bu rows [] l hl
  · exact officePulseGo_company_le today sn bu recs [] l hl

/-! # Claim C4 — within-fetch deduplication -/

/-- Claim C4, counterexample: the seen-set deduplicates on the RAW
upstream company string, while `company_name` is normalized afterwards —
a payload whose rows carry `"google"` and `"Google"` produces two records
with the same `company_name` `"Google"` in a single pass. -/
theorem C4_counterexample :
    (scrapeAirtable ⟨2024, 1, 1⟩ [⟨"c1", "Company", []⟩] "layoffs.fyi" "tech"
        "https://layoffs.fyi/"
        [[("c1", JVal.s "google")], [("c1", JVal.s "Google")]]).map
      LayoffCreate.company_name = ["Google", "Google"] := by decide

/-- Raw companies emitted by the layoffs.fyi loop avoid the seen-set and
are pairwise distinct. -/
theorem rawNames_disjoint_nodup (today : Date) (cols : List Column)
    (cmap : List (String × String)) (sn sty bu : String) :
    ∀ (rows : List AirRow) (seen : List String),
      (∀ c ∈ scrapeAirtableRawNames today cols cmap sn sty bu rows seen, c ∉ seen) ∧
      (scrapeAirtableRawNames today cols cmap sn sty bu rows seen).Nodup := by
  intro rows
  induction rows with
  | nil =>
      intro seen
      exact ⟨fun c hc => absurd hc (List.not_mem_nil c), List.nodup_nil⟩
  | cons cells rest ih =>
      intro seen
      constructor
      · intro c hc
        simp only [scrapeAirtableRawNames] at hc
        split at hc
        · exact (ih seen).1 c hc
        · split at hc
          · exact (ih seen).1 c hc
          next hnotseen =>
            split at hc
            · rcases List.mem_cons.mp hc with h1 | h1
              · subst h1; exact hnotseen
              · intro hcs
                exact (ih _).1 c h1 (List.mem_cons_of_mem _ hcs)
            · intro hcs
              exact (ih _).1 c hc (List.mem_cons_of_mem _ hcs)
      · simp only [scrapeAirtableRawNames]
        split
        · exact (ih seen).2
        · split
          · exact (ih seen).2
          · split
            · refine List.nodup_cons.mpr ⟨?_, (ih _).2⟩
              intro hmem
              exact (ih _).1 _ hmem (List.mem_cons_self _ _)
            · exact (ih _).2

/-- The emitted records' company names are exactly the normalized
200-character truncations of the emitted raw companies, in order. -/
theorem scrapeAirtableGo_map_company (today : Date) (cols : List Column)
    (cmap : List (String × String)) (sn sty bu : String) :
    ∀ (rows : List AirRow) (seen : List String),
      (scrapeAirtableGo today cols cmap sn sty bu rows seen).map
          LayoffCreate.company_name =
        (scrapeAirtableRawNames today cols cmap sn sty bu rows seen).map
          (fun c => normalizeCompanyName (pyTake c 200)) := by
  intro rows
  induction rows with
  | nil => intro seen; rfl
  | cons cells rest ih =>
      intro seen
      simp only [scrapeAirtableGo, scrapeAirtableRawNames]
      split
      · exact ih seen
      · split
        · exact ih seen
        · split
          next hbuild =>
            simp only [List.map_cons, ih _, buildRowFyi_company hbuild]
          next => exact ih _

/-- Claim C4, amended: within one fetch the loop deduplicates on the raw
upstream company string — the raw names underlying the emitted records
are pairwise distinct, and each record's `company_name` is the normalized
200-character truncation of its raw name; but since distinct raw names can
normalize to the same `company_name` (case or whitespace variants), the
emitted `company_name`s are not necessarily pairwise distinct. -/
theorem C4_amended_raw_dedup (today : Date) (cols : List Column)
    (sn sty bu : String) (rows : List AirRow) :
    (scrapeAirtableRawNames today cols (columnMap cols) sn sty bu rows []).Nodup ∧
    (scrapeAirtableGo today cols (columnMap cols) sn sty bu rows []).map
        LayoffCreate.company_name =
      (scrapeAirtableRawNames today cols (columnMap cols) sn sty bu rows []).map
        (fun c => normalizeCompanyName (pyTake c 200)) :=
  ⟨(rawNames_disjoint_nodup today cols (columnMap cols) sn sty bu rows []).2,
   scrapeAirtableGo_map_company today cols (columnMap cols) sn sty bu rows []⟩

/-! # Claim C6 — per-row isolation -/

/-- Partition of a list's length by a Boolean predicate. -/
theorem length_filter_split {α : Type} (p : α → Bool) (l : List α) :
    (l.filter p).length + (l.filter (fun a => !p a)).length = l.length := by
  induction l with
  | nil => rfl
  | cons a l ih => cases h : p a <;> simp [List.filter_cons, h] <;> omega

/-- Counting lemma for the layoffs.fyi row loop: when every row's company
extracts, the companies are pairwise distinct and avoid the seen-set, the
loop emits exactly one record per row whose construction succeeds. -/
theorem scrapeAirtableGo_length (today : Date) (cols : List Column)
    (cmap : List (String × String)) (sn sty bu : String) :
    ∀ (rows : List AirRow) (seen : List String),
      (∀ r ∈ rows, (extractCompanyFyi cmap r).isSome = true) →
      (rows.map (extractCompanyFyi cmap)).Nodup →
      (∀ r ∈ rows, ∀ c, extractCompanyFyi cmap r = some c → c ∉ seen) →
      (scrapeAirtableGo today cols cmap sn sty bu rows seen).length =
        (rows.filter (rowOkFyi today cols cmap sn sty bu)).length := by
  intro rows
  induction rows with
  | nil => intro seen _ _ _; rfl
  | cons cells rest ih =>
      intro seen hall hnodup hseen
      obtain ⟨c, hc⟩ :=
        Option.isSome_iff_exists.mp (hall cells (List.mem_cons_self _ _))
      have hcseen : c ∉ seen := hseen cells (List.mem_cons_self _ _) c hc
      have hallr : ∀ r ∈ rest, (extractCompanyFyi cmap r).isSome = true :=
        fun r hr => hall r (List.mem_cons_of_mem _ hr)
      rw [List.map_cons] at hnodup
      have hpair := List.nodup_cons.mp hnodup
      have hheadnot : some c ∉ rest.map (extractCompanyFyi cmap) := hc ▸ hpair.1
      have hseenr : ∀ r ∈ rest, ∀ c', extractCompanyFyi cmap r = some c' →
          c' ∉ c :: seen := by
        intro r hr c' hc' hmem
        rcases List.mem_cons.mp hmem with h1 | h1
        · subst h1
          exact hheadnot (hc' ▸ List.mem_map_of_mem _ hr)
        · exact hseen r (List.mem_cons_of_mem _ hr) c' hc' h1
      simp only [scrapeAirtableGo, hc, List.filter_cons]
      rw [if_neg hcseen]
      cases hbuild : buildRowFyi today cols cmap sn sty bu c cells with
      | ok l =>
          have hok : rowOkFyi today cols cmap sn sty bu cells = true := by
            simp [rowOkFyi, hc, hbuild]
          rw [hok]
          simp [ih (c :: seen) hallr hpair.2 hseenr]
      | error e =>
          have hok : rowOkFyi today cols cmap sn sty bu cells = false := by
            simp [rowOkFyi, hc, hbuild]
          rw [hok]
          simp [ih (c :: seen) hallr hpair.2 hseenr]

/-- Claim C6: per-row isolation in `_scrape_airtable` — for a payload of
n rows whose companies all extract and are pairwise distinct, if exactly
one row raises a per-row exception during record construction (e.g. a
negative required numeric field), the loop returns exactly n − 1 records
and does not throw. -/
theorem C6_row_isolation (today : Date) (cols : List Column)
    (sn sty bu : String) (rows : List AirRow)
    (hall : (rows.all
      (fun r => (extractCompanyFyi (columnMap cols) r).isSome)) = true)
    (hnodup : (rows.map (extractCompanyFyi (columnMap cols))).Nodup)
    (hone : (rows.filter (fun r =>
      !(rowOkFyi today cols (columnMap cols) sn sty bu r))).length = 1) :
    (scrapeAirtable today cols sn sty bu rows).length = rows.length - 1 := by
  have hne : ¬ (rows.isEmpty = true) := by
    cases rows
    · simp at hone
    · simp
  unfold scrapeAirtable
  rw [if_neg hne]
  rw [scrapeAirtableGo_length today cols (columnMap cols) sn sty bu rows []
    (fun r hr => by simpa using List.all_eq_true.mp hall r hr)
    hnodup
    (fun r _ c _ hmem => absurd hmem (List.not_mem_nil c))]
  have hsplit :=
    length_filter_split (rowOkFyi today cols (columnMap cols) sn sty bu) rows
  omega

/-- Claim C6, witness: the ten-row payload whose fifth row carries a
negative magnitude yields exactly nine records. -/
theorem C6_witness :
    (scrapeAirtable ⟨2024, 1, 1⟩ c6Cols "layoffs.fyi" "tech"
      "https://layoffs.fyi/" c6Rows).length = 9 :=
  C6_row_isolation ⟨2024, 1, 1⟩ c6Cols "layoffs.fyi" "tech"
    "https://layoffs.fyi/" c6Rows (by decide) (by decide) (by decide)

end LayoffTracker
